import Mathlib

/-!
Verification of the playwright-screenshot-rpc server: a shallow embedding of
the task manager (Redis facade), the JSON-RPC dispatcher, the capture
dispatch of the screenshot service, and the raw PNG/JPEG dimension parsers,
with theorems settling the specification claims.

Conventions of the embedding:
* Python byte strings are `List Nat` (each entry one byte value).
* Redis stores JSON text; since the client is configured with
  `decode_responses=True` and every stored value is produced by
  `model_dump_json`, values are modelled as parsed JSON trees (`Json`),
  with `model_dump_json` ↦ `…ToJson` and `model_validate_json` ↦ `…FromJson`.
* `time.time()` timestamps and JSON numbers are modelled as exact rationals.
* Fresh UUIDs and clock reads are oracles passed in as explicit arguments.
-/

/-- A JSON value (`dict`/`list`/`str`/number/`bool`/`None` in Python terms).
Numbers are exact rationals, standing in for JSON decimal literals. -/
inductive Json where
  | null : Json
  | bool (b : Bool) : Json
  | str (s : String) : Json
  | num (q : ℚ) : Json
  | arr (elems : List Json) : Json
  | obj (fields : List (String × Json)) : Json

mutual

/-- Decidable equality on JSON values (hand-rolled: the nested occurrence of
`List Json` defeats automatic derivation). -/
def Json.decEq : (a b : Json) → Decidable (a = b)
  | .null, .null => isTrue rfl
  | .bool a, .bool b =>
    if h : a = b then isTrue (by rw [h]) else isFalse fun hh => h (by cases hh; rfl)
  | .str a, .str b =>
    if h : a = b then isTrue (by rw [h]) else isFalse fun hh => h (by cases hh; rfl)
  | .num a, .num b =>
    if h : a = b then isTrue (by rw [h]) else isFalse fun hh => h (by cases hh; rfl)
  | .arr a, .arr b =>
    match Json.decEqList a b with
    | isTrue h => isTrue (by rw [h])
    | isFalse h => isFalse fun hh => h (by cases hh; rfl)
  | .obj a, .obj b =>
    match Json.decEqFields a b with
    | isTrue h => isTrue (by rw [h])
    | isFalse h => isFalse fun hh => h (by cases hh; rfl)
  | .null, .bool _ => isFalse fun h => Json.noConfusion h
  | .null, .str _ => isFalse fun h => Json.noConfusion h
  | .null, .num _ => isFalse fun h => Json.noConfusion h
  | .null, .arr _ => isFalse fun h => Json.noConfusion h
  | .null, .obj _ => isFalse fun h => Json.noConfusion h
  | .bool _, .null => isFalse fun h => Json.noConfusion h
  | .bool _, .str _ => isFalse fun h => Json.noConfusion h
  | .bool _, .num _ => isFalse fun h => Json.noConfusion h
  | .bool _, .arr _ => isFalse fun h => Json.noConfusion h
  | .bool _, .obj _ => isFalse fun h => Json.noConfusion h
  | .str _, .null => isFalse fun h => Json.noConfusion h
  | .str _, .bool _ => isFalse fun h => Json.noConfusion h
  | .str _, .num _ => isFalse fun h => Json.noConfusion h
  | .str _, .arr _ => isFalse fun h => Json.noConfusion h
  | .str _, .obj _ => isFalse fun h => Json.noConfusion h
  | .num _, .null => isFalse fun h => Json.noConfusion h
  | .num _, .bool _ => isFalse fun h => Json.noConfusion h
  | .num _, .str _ => isFalse fun h => Json.noConfusion h
  | .num _, .arr _ => isFalse fun h => Json.noConfusion h
  | .num _, .obj _ => isFalse fun h => Json.noConfusion h
  | .arr _, .null => isFalse fun h => Json.noConfusion h
  | .arr _, .bool _ => isFalse fun h => Json.noConfusion h
  | .arr _, .str _ => isFalse fun h => Json.noConfusion h
  | .arr _, .num _ => isFalse fun h => Json.noConfusion h
  | .arr _, .obj _ => isFalse fun h => Json.noConfusion h
  | .obj _, .null => isFalse fun h => Json.noConfusion h
  | .obj _, .bool _ => isFalse fun h => Json.noConfusion h
  | .obj _, .str _ => isFalse fun h => Json.noConfusion h
  | .obj _, .num _ => isFalse fun h => Json.noConfusion h
  | .obj _, .arr _ => isFalse fun h => Json.noConfusion h
termination_by structural a => a

/-- Decidable equality on JSON arrays. -/
def Json.decEqList : (a b : List Json) → Decidable (a = b)
  | [], [] => isTrue rfl
  | x :: xs, y :: ys =>
    match Json.decEq x y with
    | isFalse h => isFalse fun hh => h (by cases hh; rfl)
    | isTrue h1 =>
      match Json.decEqList xs ys with
      | isTrue h2 => isTrue (by rw [h1, h2])
      | isFalse h2 => isFalse fun hh => h2 (by cases hh; rfl)
  | [], _ :: _ => isFalse fun h => List.noConfusion h
  | _ :: _, [] => isFalse fun h => List.noConfusion h
termination_by structural a => a

/-- Decidable equality on JSON object field lists. -/
def Json.decEqFields : (a b : List (String × Json)) → Decidable (a = b)
  | [], [] => isTrue rfl
  | (k1, v1) :: xs, (k2, v2) :: ys =>
    if hk : k1 = k2 then
      match Json.decEq v1 v2 with
      | isFalse h => isFalse fun hh => h (by cases hh; rfl)
      | isTrue hv =>
        match Json.decEqFields xs ys with
        | isTrue ht => isTrue (by rw [hk, hv, ht])
        | isFalse h => isFalse fun hh => h (by cases hh; rfl)
    else isFalse fun hh => hk (by cases hh; rfl)
  | [], _ :: _ => isFalse fun h => List.noConfusion h
  | _ :: _, [] => isFalse fun h => List.noConfusion h
termination_by structural a => a

end

instance : DecidableEq Json := Json.decEq

/-- `dict.get(key)`: first binding of `key` in an object's field list. -/
def Json.lookup (j : Json) (key : String) : Option Json :=
  match j with
  | .obj fields => go fields
  | _ => none
where
  go : List (String × Json) → Option Json
  | [] => none
  | (k, v) :: rest => if k = key then some v else go rest

/-! ## Data model (`server/models.py`) -/

/-- `JobStatus = Literal["pending", "processing", "success", "failed"]`. -/
inductive JobStatus where
  | pending | processing | success | failed
deriving DecidableEq

/-- `class ScreenshotResult(BaseModel)`: every field optional, default `None`.
Python `int` fields hold byte counts and pixel sizes; they are modelled as
`Nat` (the code only ever stores non-negative values in them). -/
structure ScreenshotResult where
  image : Option String := none
  image_type : Option String := none
  width : Option Nat := none
  height : Option Nat := none
  size_bytes : Option Nat := none
  error : Option String := none
deriving DecidableEq

/-- `class JobResult(BaseModel)`; `created_at`/`updated_at` are `time.time()`
floats, modelled as exact rationals. -/
structure JobResult where
  job_id : String
  status : JobStatus
  result : Option ScreenshotResult := none
  created_at : ℚ
  updated_at : ℚ
deriving DecidableEq

/-- `class ClipRegion(BaseModel)`: float fields (validated `x,y ≥ 0`,
`width,height > 0`). -/
structure ClipRegion where
  x : ℚ
  y : ℚ
  width : ℚ
  height : ℚ
deriving DecidableEq

/-- `class Viewport(BaseModel)`: `width`, `height` ints (validated bounds
`1..7680` / `1..4320`). -/
structure Viewport where
  width : Nat
  height : Nat
deriving DecidableEq

/-- `wait_until: Literal["load", "domcontentloaded", "networkidle"]`. -/
inductive WaitUntil where
  | load | domcontentloaded | networkidle
deriving DecidableEq

/-- `image_type: Literal["png", "jpeg"]`. -/
inductive ImageType where
  | png | jpeg
deriving DecidableEq

/-- `encoding: Literal["base64", "binary"]`. -/
inductive OutputEncoding where
  | base64 | binary
deriving DecidableEq

/-- `class ScreenshotParams(BaseModel)` — the validated parameter record of
the `screenshot` method. -/
structure ScreenshotParams where
  html : String
  selector : Option String := none
  clip : Option ClipRegion := none
  full_page : Bool := false
  viewport : Viewport
  wait_until : WaitUntil
  wait_for_selector : Option String := none
  timeout_ms : Nat
  extra_http_headers : List (String × String) := []
  style_overrides : Option String := none
  image_type : ImageType
  quality : Nat
  scale : ℚ := 1
  omit_background : Bool := false
  encoding : OutputEncoding := .base64
deriving DecidableEq

/-! ## JSON serialization of the models

`model_dump_json` writes each field in declaration order; `None` becomes
`null`. `model_validate_json` reads fields by name, ignores extras, and
treats a missing optional field as its default. -/

/-- The wire form of a `JobStatus`. -/
def statusToString : JobStatus → String
  | .pending => "pending"
  | .processing => "processing"
  | .success => "success"
  | .failed => "failed"

/-- Parse a `JobStatus` literal. -/
def statusFromString : String → Option JobStatus
  | "pending" => some .pending
  | "processing" => some .processing
  | "success" => some .success
  | "failed" => some .failed
  | _ => none

/-- `Optional[str]` as JSON. -/
def Json.ofOptStr : Option String → Json
  | none => .null
  | some s => .str s

/-- `Optional[int]` (non-negative) as JSON. -/
def Json.ofOptNat : Option Nat → Json
  | none => .null
  | some n => .num n

/-- Read an `Optional[str]` field: missing or `null` ⇒ `None`; a string ⇒
itself; any other value fails validation. -/
def Json.getOptStr (j : Json) (key : String) : Option (Option String) :=
  match j.lookup key with
  | none => some none
  | some .null => some none
  | some (.str s) => some (some s)
  | some _ => none

/-- Read an `Optional[int]` field (only non-negative integers occur). -/
def Json.getOptNat (j : Json) (key : String) : Option (Option Nat) :=
  match j.lookup key with
  | none => some none
  | some .null => some none
  | some (.num q) => if q.den = 1 ∧ 0 ≤ q.num then some (some q.num.toNat) else none
  | some _ => none

/-- `ScreenshotResult.model_dump_json` (as a JSON tree). -/
def screenshotResultToJson (r : ScreenshotResult) : Json :=
  .obj [("image", .ofOptStr r.image),
        ("image_type", .ofOptStr r.image_type),
        ("width", .ofOptNat r.width),
        ("height", .ofOptNat r.height),
        ("size_bytes", .ofOptNat r.size_bytes),
        ("error", .ofOptStr r.error)]

/-- `ScreenshotResult.model_validate` on a JSON tree. -/
def screenshotResultFromJson (j : Json) : Option ScreenshotResult :=
  match j with
  | .obj _ => do
    let image ← j.getOptStr "image"
    let image_type ← j.getOptStr "image_type"
    let width ← j.getOptNat "width"
    let height ← j.getOptNat "height"
    let size_bytes ← j.getOptNat "size_bytes"
    let error ← j.getOptStr "error"
    pure ⟨image, image_type, width, height, size_bytes, error⟩
  | _ => none

/-- `JobResult.model_dump_json` (as a JSON tree). -/
def jobResultToJson (j : JobResult) : Json :=
  .obj [("job_id", .str j.job_id),
        ("status", .str (statusToString j.status)),
        ("result", match j.result with
                   | none => .null
                   | some r => screenshotResultToJson r),
        ("created_at", .num j.created_at),
        ("updated_at", .num j.updated_at)]

/-- `JobResult.model_validate_json` on a JSON tree. -/
def jobResultFromJson (j : Json) : Option JobResult :=
  match j with
  | .obj _ => do
    let job_id ← match j.lookup "job_id" with
                 | some (.str s) => some s
                 | _ => none
    let status ← match j.lookup "status" with
                 | some (.str s) => statusFromString s
                 | _ => none
    let result ← match j.lookup "result" with
                 | none => some none
                 | some .null => some none
                 | some (o@(.obj _)) => (screenshotResultFromJson o).map some
                 | some _ => none
    let created_at ← match j.lookup "created_at" with
                     | some (.num q) => some q
                     | _ => none
    let updated_at ← match j.lookup "updated_at" with
                     | some (.num q) => some q
                     | _ => none
    pure ⟨job_id, status, result, created_at, updated_at⟩
  | _ => none

/-! ## Configuration (`config.py`)

Only the settings the modelled code paths read.  All values come from the
environment; nothing in the repository fixes them, so every theorem
quantifies over a `Settings` record. -/

/-- The subset of `Settings` that the modelled code reads. -/
structure Settings where
  REDIS_TASK_QUEUE : String
  REDIS_RESULT_PREFIX : String
  REDIS_RESULT_TTL_SECONDS : Nat
  VIEWPORT_WIDTH : Nat
  VIEWPORT_HEIGHT : Nat
  DEFAULT_IMAGE_TYPE : ImageType
  DEFAULT_IMAGE_QUALITY : Nat
  DEFAULT_WAIT_UNTIL : WaitUntil
  DEFAULT_TIMEOUT_MS : Nat

/-! ## Broker state (Redis, as used by `server/task_manager.py`)

An untimed model: plain string keys and list keys.  TTLs (`ex=`, `expire`)
only schedule future eviction, so they do not affect the immediate reads the
claims are about; `expire` is kept as a (state-preserving) operation to
mirror the command sequence of the source. -/

/-- The broker: string keys (`SET`/`GET`) and list keys (`RPUSH`/`BLPOP`).
Values are the parsed form of the stored JSON text. -/
structure Redis where
  strings : String → Option Json
  lists : String → List Json

/-- `SET key value EX ttl`. -/
def Redis.setEx (st : Redis) (key : String) (v : Json) (_ttl : Nat) : Redis :=
  { st with strings := fun k => if k = key then some v else st.strings k }

/-- `RPUSH key value`. -/
def Redis.rpush (st : Redis) (key : String) (v : Json) : Redis :=
  { st with lists := fun k => if k = key then st.lists key ++ [v] else st.lists k }

/-- `BLPOP key timeout`: pops the head if the list is non-empty, otherwise
reports a timeout (`none`).  The timeout length is irrelevant in the untimed
model. -/
def Redis.blpop (st : Redis) (key : String) (_timeout : Nat) :
    Option Json × Redis :=
  match st.lists key with
  | [] => (none, st)
  | v :: rest =>
    (some v, { st with lists := fun k => if k = key then rest else st.lists k })

/-- `EXPIRE key ttl`: schedules eviction only; state-preserving here. -/
def Redis.expire (st : Redis) (_key : String) (_ttl : Nat) : Redis := st

/-! ## Task manager (`server/task_manager.py`) -/

namespace TaskManager

/-- `RESULT_QUEUE_PREFIX = "result_queue:"`. -/
def RESULT_QUEUE_PREFIX : String := "result_queue:"

/-- The status key `f"{settings.REDIS_RESULT_PREFIX}{job_id}"`. -/
def resultKey (cfg : Settings) (jobId : String) : String :=
  cfg.REDIS_RESULT_PREFIX ++ jobId

/-- The mailbox key `f"{RESULT_QUEUE_PREFIX}{job_id}"`. -/
def mailboxKey (jobId : String) : String :=
  RESULT_QUEUE_PREFIX ++ jobId

end TaskManager

/-- Wire form of `wait_until`. -/
def waitUntilToString : WaitUntil → String
  | .load => "load"
  | .domcontentloaded => "domcontentloaded"
  | .networkidle => "networkidle"

/-- Wire form of `image_type`. -/
def imageTypeToString : ImageType → String
  | .png => "png"
  | .jpeg => "jpeg"

/-- Wire form of `encoding`. -/
def encodingToString : OutputEncoding → String
  | .base64 => "base64"
  | .binary => "binary"

/-- `ClipRegion.model_dump`. -/
def clipToJson (c : ClipRegion) : Json :=
  .obj [("x", .num c.x), ("y", .num c.y),
        ("width", .num c.width), ("height", .num c.height)]

/-- `Viewport.model_dump`. -/
def viewportToJson (v : Viewport) : Json :=
  .obj [("width", .num v.width), ("height", .num v.height)]

/-- `ScreenshotParams.model_dump` (fields in declaration order). -/
def screenshotParamsToJson (p : ScreenshotParams) : Json :=
  .obj [("html", .str p.html),
        ("selector", .ofOptStr p.selector),
        ("clip", match p.clip with
                 | none => .null
                 | some c => clipToJson c),
        ("full_page", .bool p.full_page),
        ("viewport", viewportToJson p.viewport),
        ("wait_until", .str (waitUntilToString p.wait_until)),
        ("wait_for_selector", .ofOptStr p.wait_for_selector),
        ("timeout_ms", .num p.timeout_ms),
        ("extra_http_headers",
          .obj (p.extra_http_headers.map fun kv => (kv.1, .str kv.2))),
        ("style_overrides", .ofOptStr p.style_overrides),
        ("image_type", .str (imageTypeToString p.image_type)),
        ("quality", .num p.quality),
        ("scale", .num p.scale),
        ("omit_background", .bool p.omit_background),
        ("encoding", .str (encodingToString p.encoding))]

namespace TaskManager

/-- The task payload `{"job_id": job_id, "params": params.model_dump()}`. -/
def taskPayloadJson (jobId : String) (params : ScreenshotParams) : Json :=
  .obj [("job_id", .str jobId), ("params", screenshotParamsToJson params)]

/-- `submit_task`: builds a pending `JobResult`, then — inside one
`pipeline(transaction=True)` block, i.e. one atomic broker step — SETs the
status key with TTL and RPUSHes the task payload.  The fresh UUID `jobId`
and the clock reading `now` are oracles. -/
def submitTask (cfg : Settings) (jobId : String) (now : ℚ)
    (params : ScreenshotParams) (st : Redis) : String × Redis :=
  let job_result : JobResult :=
    { job_id := jobId, status := .pending, created_at := now, updated_at := now }
  let st := st.setEx (resultKey cfg jobId) (jobResultToJson job_result)
    cfg.REDIS_RESULT_TTL_SECONDS
  let st := st.rpush cfg.REDIS_TASK_QUEUE (taskPayloadJson jobId params)
  (jobId, st)

/-- `get_job`: GET the status key and deserialize (`None` when absent). -/
def getJob (cfg : Settings) (st : Redis) (jobId : String) : Option JobResult :=
  match st.strings (resultKey cfg jobId) with
  | none => none
  | some data => jobResultFromJson data

/-- `_set_result`: SET the status key with TTL. -/
def setResult (cfg : Settings) (jobId : String) (job : JobResult) (st : Redis) :
    Redis :=
  st.setEx (resultKey cfg jobId) (jobResultToJson job) cfg.REDIS_RESULT_TTL_SECONDS

/-- Python truthiness of `job.result and job.result.image`: the nested model
is always truthy, the image string only when non-`None` and non-empty. -/
def imageTruthy (job : JobResult) : Bool :=
  match job.result with
  | some r => match r.image with
              | some s => s ≠ ""
              | none => false
  | none => false

/-- Null out `job.result.image`. -/
def clearImage (job : JobResult) : JobResult :=
  { job with result := job.result.map fun r => { r with image := none } }

/-- `update_job_status`: load the job (return unchanged when the status key
is gone), set status/`updated_at`/result; if terminal, RPUSH the full record
(image included) to the mailbox and set its 60 s TTL; then null out the
image ("use once, then forget") and SET the status key back. -/
def updateJobStatus (cfg : Settings) (jobId : String) (status : JobStatus)
    (result : Option ScreenshotResult) (now : ℚ) (st : Redis) : Redis :=
  match getJob cfg st jobId with
  | none => st
  | some job0 =>
    let job := { job0 with status := status, updated_at := now, result := result }
    let st :=
      if status = .success ∨ status = .failed then
        (st.rpush (mailboxKey jobId) (jobResultToJson job)).expire
          (mailboxKey jobId) 60
      else st
    let job := if imageTruthy job then clearImage job else job
    setResult cfg jobId job st

/-- `wait_for_result`: BLPOP on the mailbox with the given timeout;
deserializes the popped record, or `None` on timeout. -/
def waitForResult (st : Redis) (jobId : String) (timeout : Nat) :
    Option JobResult × Redis :=
  match st.blpop (mailboxKey jobId) timeout with
  | (none, st) => (none, st)
  | (some data, st) => (jobResultFromJson data, st)

/-- `pop_task`: BLPOP on the task queue (worker side). -/
def popTask (cfg : Settings) (st : Redis) (timeout : Nat) :
    Option Json × Redis :=
  st.blpop cfg.REDIS_TASK_QUEUE timeout

end TaskManager

/-! ## Error codes (`server/models.py`, `class ErrorCode(IntEnum)`) -/

namespace ErrorCode

def PARSE_ERROR : Int := -32700
def INVALID_REQUEST : Int := -32600
def METHOD_NOT_FOUND : Int := -32601
def INVALID_PARAMS : Int := -32602
def INTERNAL_ERROR : Int := -32603
def SCREENSHOT_FAILED : Int := -32001
def BROWSER_ERROR : Int := -32002
def SELECTOR_NOT_FOUND : Int := -32003
def TIMEOUT : Int := -32004
def JOB_NOT_FOUND : Int := -32005

end ErrorCode

/-! ## Screenshot service (`server/screenshot_service.py`) -/

/-- `ScreenshotServiceError(message, code)`. -/
structure ScreenshotServiceError where
  message : String
  code : Int
deriving DecidableEq

/-- The screenshot call made at the end of `_render_and_capture`: either
`page.screenshot(**shot_kwargs)` (with its keyword set recorded) or
`element.screenshot(...)` on the first match of a selector.  A `quality`
of `none` records that no (non-`None`) quality was sent. -/
inductive ShotCall where
  | pageShot (image_type : ImageType) (full_page : Bool) (omit_background : Bool)
      (quality : Option Nat) (clip : Option ClipRegion)
  | elementShot (selector : String) (image_type : ImageType) (quality : Option Nat)
deriving DecidableEq

/-- The capture step of `ScreenshotService._render_and_capture` (the
`shot_kwargs` construction and the clip/selector/page cascade).  The page's
DOM is abstracted by `found`: whether `page.query_selector(sel)` finds an
element. -/
def captureDispatch (found : String → Bool) (p : ScreenshotParams) :
    Except ScreenshotServiceError ShotCall :=
  let quality : Option Nat :=
    if p.image_type = .jpeg then some p.quality else none
  match p.clip with
  | some c =>
    .ok (.pageShot p.image_type p.full_page p.omit_background quality (some c))
  | none =>
    match p.selector with
    | some sel =>
      if found sel then
        .ok (.elementShot sel p.image_type
          (if p.image_type = .jpeg then some p.quality else none))
      else
        .error ⟨s!"选择器 '{sel}' 未匹配到任何元素",
                ErrorCode.SELECTOR_NOT_FOUND⟩
    | none =>
      .ok (.pageShot p.image_type p.full_page p.omit_background quality none)

/-- `ScreenshotService._inject_styles`.  `if not css: return html` covers
both `None` and the empty string.  The non-trivial branch parses the HTML
with BeautifulSoup (an external library) and inserts a `<style>` element; it
is abstracted by the `soupInject` argument. -/
def injectStyles (soupInject : String → String → String) (html : String)
    (css : Option String) : String :=
  match css with
  | none => html
  | some c => if c = "" then html else soupInject html c

/-- The document given to `page.set_content` in `_render_and_capture`:
`self._inject_styles(params.html, params.style_overrides)`. -/
def renderedContent (soupInject : String → String → String)
    (p : ScreenshotParams) : String :=
  injectStyles soupInject p.html p.style_overrides

/-! ## Image dimension parsers (`server/screenshot_service.py`) -/

/-- Big-endian 16-bit value from two bytes. -/
def be16 (a b : Nat) : Nat := a * 256 + b

/-- Big-endian 32-bit value from four bytes. -/
def be32 (a b c d : Nat) : Nat := ((a * 256 + b) * 256 + c) * 256 + d

/-- The 8-byte PNG signature `89 50 4E 47 0D 0A 1A 0A`. -/
def pngSignature : List Nat := [0x89, 0x50, 0x4E, 0x47, 0x0D, 0x0A, 0x1A, 0x0A]

/-- `_png_dimensions`: require at least 24 bytes and the PNG signature, then
`struct.unpack(">II", data[16:24])`; anything else yields `(0, 0)` (the
raised `ValueError` is caught in the function itself). -/
def pngDimensions (data : List Nat) : Nat × Nat :=
  if data.length < 24 ∨ data.take 8 ≠ pngSignature then (0, 0)
  else
    match data.drop 16 with
    | a :: b :: c :: d :: e :: f :: g :: h :: _ => (be32 a b c d, be32 e f g h)
    | _ => (0, 0)

/-- The reads inside the SOF branch of `_jpeg_dimensions`: skip one
precision byte, then height and width as big-endian `uint16` (height comes
first in the stream; the returned pair is `(width, height)`).  Truncated
reads break with `(0, 0)`. -/
def readSOFPayload : List Nat → Nat × Nat
  | _ :: h1 :: h2 :: w1 :: w2 :: _ => (be16 w1 w2, be16 h1 h2)
  | _ => (0, 0)

/-- The marker loop of `_jpeg_dimensions`, operating on the bytes after the
SOI marker.  Each round reads a 2-byte marker and a 2-byte length; an SOF0/
SOF1/SOF2 marker yields the dimensions (through `readSOFPayload`); any
other marker skips `length - 2` bytes when `length > 2` and otherwise
breaks.  Truncated reads break with `(0, 0)`. -/
def jpegScan (bytes : List Nat) : Nat × Nat :=
  match bytes with
  | m1 :: m2 :: l1 :: l2 :: rest =>
    let marker := m1 * 256 + m2
    let length := l1 * 256 + l2
    if marker = 0xFFC0 ∨ marker = 0xFFC1 ∨ marker = 0xFFC2 then
      readSOFPayload rest
    else if 2 < length then jpegScan (rest.drop (length - 2))
    else (0, 0)
  | _ => (0, 0)
termination_by bytes.length
decreasing_by
  simp only [List.length_drop, List.length_cons]
  omega

/-- `_jpeg_dimensions`: require the SOI marker `FF D8`, then scan markers. -/
def jpegDimensions (data : List Nat) : Nat × Nat :=
  match data with
  | 0xFF :: 0xD8 :: rest => jpegScan rest
  | _ => (0, 0)

/-- `_parse_image_dimensions`: PNG bytes go to the PNG parser, everything
else (the only other `image_type` is `"jpeg"`) to the JPEG parser. -/
def parseImageDimensions (data : List Nat) (image_type : ImageType) : Nat × Nat :=
  match image_type with
  | .png => pngDimensions data
  | .jpeg => jpegDimensions data

/-- `ScreenshotService._build_result`: parse dimensions, base64-encode, wrap.
Base64 encoding is abstracted by `b64` (an external library call); the byte
length is recorded before encoding. -/
def buildResult (b64 : List Nat → String) (image_bytes : List Nat)
    (image_type : ImageType) : ScreenshotResult :=
  let wh := parseImageDimensions image_bytes image_type
  { image := some (b64 image_bytes)
    image_type := some (imageTypeToString image_type)
    width := some wh.1
    height := some wh.2
    size_bytes := some image_bytes.length }

/-! ### JPEG segment streams (used to state the well-formed half of the
dimension-parser claim) -/

/-- One marker segment: a 2-byte marker, a 2-byte big-endian length field
covering the length field itself plus the payload, then the payload. -/
structure JpegSegment where
  marker : Nat
  payload : List Nat
deriving DecidableEq

/-- Serialize one segment. -/
def encodeSegment (s : JpegSegment) : List Nat :=
  s.marker / 256 :: s.marker % 256 ::
    (s.payload.length + 2) / 256 :: (s.payload.length + 2) % 256 :: s.payload

/-- Serialize a list of segments. -/
def encodeSegments (l : List JpegSegment) : List Nat :=
  (l.map encodeSegment).flatten

/-- Markers `FFC0`, `FFC1`, `FFC2` (SOF0/SOF1/SOF2). -/
def isSOFMarker (m : Nat) : Prop := m = 0xFFC0 ∨ m = 0xFFC1 ∨ m = 0xFFC2

instance (m : Nat) : Decidable (isSOFMarker m) := by
  unfold isSOFMarker; infer_instance

/-- A well-formed non-SOF segment the scanner can skip: a two-byte marker
starting with `FF`, not an SOF marker, a non-empty payload (so the length
field exceeds 2), and a length that fits in a `uint16`. -/
def goodSkipSegment (s : JpegSegment) : Prop :=
  0xFF00 ≤ s.marker ∧ s.marker ≤ 0xFFFF ∧ ¬ isSOFMarker s.marker ∧
    s.payload ≠ [] ∧ s.payload.length + 2 ≤ 0xFFFF

instance (s : JpegSegment) : Decidable (goodSkipSegment s) := by
  unfold goodSkipSegment; infer_instance

/-! ## JSON-RPC layer (`server/rpc_handler.py`, `server/main.py`) -/

/-- A JSON-RPC `id`: `Optional[Union[str, int]]` (the option sits at the
use sites). -/
inductive RpcId where
  | s (s : String)
  | n (n : Int)
deriving DecidableEq

/-- `JsonRpcRequest` after validation (the `jsonrpc` field is the literal
`"2.0"` and carries no information). -/
structure JsonRpcRequest where
  method : String
  params : Option Json := none
  id : Option RpcId := none
deriving DecidableEq

/-- A raised `_RpcError(code, message, data)`.  The message is optional
because the screenshot handler can re-raise a worker error whose text is
`None`. -/
structure RpcError where
  code : Int
  message : Option String := none
  data : Option Json := none
deriving DecidableEq

/-- `JsonRpcRequest.model_validate(payload)`: the payload must be an object;
`jsonrpc` defaults to (and must otherwise equal) `"2.0"`; `method` must be a
string; `params` must be absent, `null`, or an object; `id` must be absent,
`null`, a string, or an integer.  Extra fields are ignored.  `none` models a
raised `ValidationError`. -/
def validateRequest (payload : Json) : Option JsonRpcRequest :=
  match payload with
  | .obj _ =>
    let versionOk :=
      match payload.lookup "jsonrpc" with
      | none => true
      | some (.str s) => s = "2.0"
      | some _ => false
    if versionOk then
      match payload.lookup "method" with
      | some (.str m) =>
        let params? : Option (Option Json) :=
          match payload.lookup "params" with
          | none => some none
          | some .null => some none
          | some (o@(.obj _)) => some (some o)
          | some _ => none
        let id? : Option (Option RpcId) :=
          match payload.lookup "id" with
          | none => some none
          | some .null => some none
          | some (.str s) => some (some (.s s))
          | some (.num q) => if q.den = 1 then some (some (.n q.num)) else none
          | some _ => none
        match params?, id? with
        | some params, some id => some ⟨m, params, id⟩
        | _, _ => none
      | _ => none
    else none
  | _ => none

/-- Dump an optional id into a response (`None` ⇒ `null`). -/
def rpcIdToJson : Option RpcId → Json
  | none => .null
  | some (.s s) => .str s
  | some (.n n) => .num n

/-- `JsonRpcResponse(...).model_dump()`: all four fields, in declaration
order, with `None` as `null`. -/
def responseJson (id : Option RpcId) (result : Option Json)
    (error : Option Json) : Json :=
  .obj [("jsonrpc", .str "2.0"),
        ("id", rpcIdToJson id),
        ("result", result.getD .null),
        ("error", error.getD .null)]

/-- `JsonRpcError(...).model_dump()`. -/
def rpcErrorJson (e : RpcError) : Json :=
  .obj [("code", .num e.code),
        ("message", .ofOptStr e.message),
        ("data", e.data.getD .null)]

/-- `RpcHandler._error_response`. -/
def errorResponse (id : Option RpcId) (e : RpcError) : Json :=
  responseJson id none (some (rpcErrorJson e))

/-- The result of `_handle_ping`: `{"pong": True, "status": "在线"}`. -/
def pingResultJson : Json :=
  .obj [("pong", .bool true), ("status", .str "在线")]

/-- `sorted(_METHOD_REGISTRY.keys())` for the four registered handlers. -/
def registeredMethodNames : List String :=
  ["get_job_status", "get_methods", "ping", "screenshot"]

/-- The result of `_handle_get_methods`. -/
def getMethodsResultJson : Json :=
  .obj [("methods", .arr (registeredMethodNames.map .str))]

/-- Oracles of one request: the UUID `submit_task` would generate and the
`time.time()` reading. -/
structure Ctx where
  jobId : String
  now : ℚ

/-- The wait bound used by `_handle_screenshot`:
`int(screenshot_params.timeout_ms / 1000) + 5`.  `timeout_ms` is validated
non-negative, so Python's truncation toward zero is floor division. -/
def screenshotWaitTimeout (p : ScreenshotParams) : Nat :=
  p.timeout_ms / 1000 + 5

/-- The tail of `_handle_screenshot` after `wait_for_result` returns: map a
missing mailbox entry to `TIMEOUT`, a failed job to `SCREENSHOT_FAILED`
carrying `job.result.error`, a job without a result record to
`INTERNAL_ERROR`, and otherwise answer with `job.result.model_dump()`
(not the `JobResult` wrapper). -/
def screenshotOutcome (jobId : String) (job : Option JobResult) :
    Except RpcError Json :=
  match job with
  | none =>
    .error ⟨ErrorCode.TIMEOUT, some s!"任务执行超时 (ID: {jobId})", none⟩
  | some job =>
    if job.status = .failed then
      .error ⟨ErrorCode.SCREENSHOT_FAILED,
              (match job.result with
               | some r => r.error
               | none => some "任务执行失败"),
              some (.obj [("job_id", .str jobId)])⟩
    else
      match job.result with
      | some r => .ok (screenshotResultToJson r)
      | none => .error ⟨ErrorCode.INTERNAL_ERROR, some "任务结果异常", none⟩

/-- Read a required rational (float) field of a clip object. -/
def Json.getNum (j : Json) (key : String) : Option ℚ :=
  match j.lookup key with
  | some (.num q) => some q
  | _ => none

/-- `ClipRegion.model_validate`: four required floats with the bounds
`x, y ≥ 0`, `width, height > 0`. -/
def clipFromJson (j : Json) : Option ClipRegion :=
  match j with
  | .obj _ => do
    let x ← j.getNum "x"
    let y ← j.getNum "y"
    let width ← j.getNum "width"
    let height ← j.getNum "height"
    if 0 ≤ x ∧ 0 ≤ y ∧ 0 < width ∧ 0 < height then
      pure ⟨x, y, width, height⟩
    else none
  | _ => none

/-- Read an optional bounded-int field: missing ⇒ the (unvalidated) default,
an integral number within bounds ⇒ itself, anything else ⇒ failure. -/
def Json.getNatField (j : Json) (key : String) (default lo hi : Nat) :
    Option Nat :=
  match j.lookup key with
  | none => some default
  | some (.num q) =>
    if q.den = 1 ∧ (lo : Int) ≤ q.num ∧ q.num ≤ (hi : Int) then
      some q.num.toNat
    else none
  | some _ => none

/-- Read an optional bool field (defaults are `False`). -/
def Json.getBoolField (j : Json) (key : String) : Option Bool :=
  match j.lookup key with
  | none => some false
  | some (.bool b) => some b
  | some _ => none

/-- `Viewport.model_validate` (or the `default_factory` when absent):
per-field defaults from the settings, bounds `1..7680` and `1..4320`. -/
def viewportFromJson (cfg : Settings) (j : Option Json) : Option Viewport :=
  match j with
  | none => some ⟨cfg.VIEWPORT_WIDTH, cfg.VIEWPORT_HEIGHT⟩
  | some (o@(.obj _)) => do
    let width ← o.getNatField "width" cfg.VIEWPORT_WIDTH 1 7680
    let height ← o.getNatField "height" cfg.VIEWPORT_HEIGHT 1 4320
    pure ⟨width, height⟩
  | some _ => none

/-- Parse a `wait_until` literal. -/
def waitUntilFromString : String → Option WaitUntil
  | "load" => some .load
  | "domcontentloaded" => some .domcontentloaded
  | "networkidle" => some .networkidle
  | _ => none

/-- Parse an `image_type` literal. -/
def imageTypeFromString : String → Option ImageType
  | "png" => some .png
  | "jpeg" => some .jpeg
  | _ => none

/-- Parse an `encoding` literal. -/
def encodingFromString : String → Option OutputEncoding
  | "base64" => some .base64
  | "binary" => some .binary
  | _ => none

/-- `extra_http_headers: dict[str, str]` with `default_factory=dict`. -/
def headersFromJson (j : Option Json) : Option (List (String × String)) :=
  match j with
  | none => some []
  | some (.obj fields) => go fields
  | some _ => none
where
  go : List (String × Json) → Option (List (String × String))
  | [] => some []
  | (k, .str v) :: rest => (go rest).map fun tail => (k, v) :: tail
  | _ => none

/-- `ScreenshotParams.model_validate`: required non-blank `html`, optional
fields with their defaults (several defaults come from the settings and are
not re-validated), bounds as declared in `models.py`.  Two pydantic corners
are not modelled, and no claim exercises them: lax-mode string coercions
(e.g. `"1"` for an int field, `"yes"` for a bool field), and the fact that
float bounds such as `0.1` are binary floats (they are treated as the exact
decimals here). -/
def parseScreenshotParams (cfg : Settings) (params : Json) :
    Option ScreenshotParams :=
  match params with
  | .obj _ => do
    let html ← match params.lookup "html" with
               | some (.str s) => if s.trim = "" then none else some s
               | _ => none
    let selector ← params.getOptStr "selector"
    let clip ← match params.lookup "clip" with
               | none => some none
               | some .null => some none
               | some (o@(.obj _)) => (clipFromJson o).map some
               | some _ => none
    let full_page ← params.getBoolField "full_page"
    let viewport ← viewportFromJson cfg (params.lookup "viewport")
    let wait_until ← match params.lookup "wait_until" with
                     | none => some cfg.DEFAULT_WAIT_UNTIL
                     | some (.str s) => waitUntilFromString s
                     | some _ => none
    let wait_for_selector ← params.getOptStr "wait_for_selector"
    let timeout_ms ← params.getNatField "timeout_ms" cfg.DEFAULT_TIMEOUT_MS
      0 120000
    let extra_http_headers ← headersFromJson (params.lookup "extra_http_headers")
    let style_overrides ← params.getOptStr "style_overrides"
    let image_type ← match params.lookup "image_type" with
                     | none => some cfg.DEFAULT_IMAGE_TYPE
                     | some (.str s) => imageTypeFromString s
                     | some _ => none
    let quality ← params.getNatField "quality" cfg.DEFAULT_IMAGE_QUALITY 1 100
    let scale ← match params.lookup "scale" with
                | none => some 1
                | some (.num q) => if 1/10 ≤ q ∧ q ≤ 4 then some q else none
                | some _ => none
    let omit_background ← params.getBoolField "omit_background"
    let encoding ← match params.lookup "encoding" with
                   | none => some .base64
                   | some (.str s) => encodingFromString s
                   | some _ => none
    pure ⟨html, selector, clip, full_page, viewport, wait_until,
      wait_for_selector, timeout_ms, extra_http_headers, style_overrides,
      image_type, quality, scale, omit_background, encoding⟩
  | _ => none

/-- `_handle_screenshot`: validate the params (`INVALID_PARAMS` on failure;
the human-readable detail list of the pydantic error is not modelled),
submit the task, block on `wait_for_result` with the
`screenshotWaitTimeout` bound, then map the outcome. -/
def handleScreenshot (cfg : Settings) (ctx : Ctx) (st : Redis)
    (params : Json) : Except RpcError Json × Redis :=
  match parseScreenshotParams cfg params with
  | none =>
    (.error ⟨ErrorCode.INVALID_PARAMS, some "截图参数校验失败",
             some (.obj [("details", .arr [])])⟩, st)
  | some p =>
    let sub := TaskManager.submitTask cfg ctx.jobId ctx.now p st
    let wait := TaskManager.waitForResult sub.2 sub.1 (screenshotWaitTimeout p)
    (screenshotOutcome sub.1 wait.1, wait.2)

/-- `_handle_get_job_status`.  (`job_id` values that are present, truthy and
not strings would be interpolated into the key by Python; that corner is not
modelled — no claim exercises it.) -/
def handleGetJobStatus (cfg : Settings) (st : Redis) (params : Json) :
    Except RpcError Json × Redis :=
  match params.lookup "job_id" with
  | some (.str s) =>
    if s = "" then
      (.error ⟨ErrorCode.INVALID_PARAMS, some "缺少必填参数: job_id", none⟩, st)
    else
      match TaskManager.getJob cfg st s with
      | none =>
        (.error ⟨ErrorCode.JOB_NOT_FOUND, some s!"找不到任务: {s}", none⟩, st)
      | some job => (.ok (jobResultToJson job), st)
  | _ => (.error ⟨ErrorCode.INVALID_PARAMS, some "缺少必填参数: job_id", none⟩, st)

/-- `RpcHandler._dispatch`: look the method up in `_METHOD_REGISTRY` and run
it on `request.params or {}`. -/
def dispatch (cfg : Settings) (ctx : Ctx) (st : Redis) (req : JsonRpcRequest) :
    Except RpcError Json × Redis :=
  let params := req.params.getD (.obj [])
  if req.method = "screenshot" then handleScreenshot cfg ctx st params
  else if req.method = "get_job_status" then handleGetJobStatus cfg st params
  else if req.method = "ping" then (.ok pingResultJson, st)
  else if req.method = "get_methods" then (.ok getMethodsResultJson, st)
  else
    (.error ⟨ErrorCode.METHOD_NOT_FOUND,
             some s!"找不到请求的方法: '{req.method}'", none⟩, st)

/-- The id salvaged from an invalid request (`payload.get("id")`).  (An id
that is neither a string nor an integer would crash the Python response
model on this error path; not modelled — no claim exercises it.) -/
def salvagedId (payload : Json) : Option RpcId :=
  match payload.lookup "id" with
  | some (.str s) => some (.s s)
  | some (.num q) => if q.den = 1 then some (.n q.num) else none
  | _ => none

/-- `RpcHandler.handle` on an already-decoded body: validate the envelope
(`INVALID_REQUEST` with the salvaged id on failure; the pydantic detail list
is not modelled), dispatch, and — only when the request carried an id —
wrap the result in a response.  A raised `_RpcError` always produces an
error response, id or not.  A non-object payload makes the re-decode step
raise (`TypeError` for lists/numbers/booleans), which the outer handler
sanitizes to `INTERNAL_ERROR`.  (A string payload would be re-parsed as
JSON text; text-level parsing is not modelled and no claim exercises it.) -/
def RpcHandler.handle (cfg : Settings) (ctx : Ctx) (st : Redis)
    (payload : Json) : Option Json × Redis :=
  match payload with
  | .obj _ =>
    match validateRequest payload with
    | none =>
      (some (errorResponse (salvagedId payload)
        ⟨ErrorCode.INVALID_REQUEST, some "请求结构不符合 JSON-RPC 2.0 规范",
         some (.arr [])⟩), st)
    | some req =>
      match dispatch cfg ctx st req with
      | (.ok result, st') =>
        if req.id = none then (none, st')
        else (some (responseJson req.id (some result) none), st')
      | (.error e, st') => (some (errorResponse req.id e), st')
  | _ =>
    (some (errorResponse none
      ⟨ErrorCode.INTERNAL_ERROR, some "服务器内部错误", none⟩), st)

/-- An HTTP reply of `POST /rpc` in `main.handle_rpc`. -/
inductive HttpReply where
  | noContent
  | okJson (body : Json)
deriving DecidableEq

/-- `main.handle_rpc` after the body has been parsed: a `None` from the
handler (a notification) becomes `204 No Content`, anything else is served
as `200 OK` JSON. -/
def handleRpcHttp (cfg : Settings) (ctx : Ctx) (st : Redis) (payload : Json) :
    HttpReply × Redis :=
  match RpcHandler.handle cfg ctx st payload with
  | (none, st') => (.noContent, st')
  | (some body, st') => (.okJson body, st')

/-! ## Shared concrete fixtures (used by witnesses and counterexamples) -/

/-- A concrete settings record (values are arbitrary; the repository takes
them from the environment). -/
def sampleSettings : Settings :=
  { REDIS_TASK_QUEUE := "screenshot_tasks"
    REDIS_RESULT_PREFIX := "screenshot_result:"
    REDIS_RESULT_TTL_SECONDS := 3600
    VIEWPORT_WIDTH := 1280
    VIEWPORT_HEIGHT := 720
    DEFAULT_IMAGE_TYPE := .png
    DEFAULT_IMAGE_QUALITY := 80
    DEFAULT_WAIT_UNTIL := .load
    DEFAULT_TIMEOUT_MS := 30000 }

/-- A broker with no keys. -/
def emptyRedis : Redis := ⟨fun _ => none, fun _ => []⟩

/-- A concrete validated parameter record. -/
def sampleParams : ScreenshotParams :=
  { html := "<p>hi</p>"
    viewport := ⟨1280, 720⟩
    wait_until := .load
    timeout_ms := 30000
    image_type := .png
    quality := 80 }

/-- A stored job record for the C2 witness. -/
def c2Job : JobResult :=
  { job_id := "j", status := .processing, created_at := 1, updated_at := 2 }

/-- A completed screenshot result for the C2 witness. -/
def c2Result : ScreenshotResult :=
  { image := some "X", image_type := some "png", width := some 2,
    height := some 3, size_bytes := some 4 }

/-- A broker holding exactly the C2 job's status key. -/
def c2State : Redis :=
  ⟨fun k => if k = TaskManager.resultKey sampleSettings "j" then
              some (jobResultToJson c2Job)
            else none,
   fun _ => []⟩

/-- The literal ping request `{"jsonrpc":"2.0","method":"ping","id":1}`. -/
def pingRequestJson : Json :=
  .obj [("jsonrpc", .str "2.0"), ("method", .str "ping"), ("id", .num 1)]

/-- The response the specification claims for the ping request. -/
def claimedPingResponseJson : Json :=
  .obj [("jsonrpc", .str "2.0"), ("id", .num 1),
        ("result", .obj [("pong", .bool true), ("status", .str "online")])]

/-- A parameter record with `timeout_ms = 1500` (the example of the claim). -/
def paramsT1500 : ScreenshotParams := { sampleParams with timeout_ms := 1500 }

/-- The notification `{"jsonrpc":"2.0","method":"ping"}` (no id). -/
def pingNotificationJson : Json :=
  .obj [("jsonrpc", .str "2.0"), ("method", .str "ping")]

/-- A notification naming an unregistered method (no id). -/
def nopeNotificationJson : Json :=
  .obj [("jsonrpc", .str "2.0"), ("method", .str "nope")]

/-! ## Round-trip lemmas for the stored JSON -/

theorem statusFromString_toString (s : JobStatus) :
    statusFromString (statusToString s) = some s := by
  cases s <;> rfl

theorem screenshotResultFromJson_fields (image image_type : Option String)
    (width height size_bytes : Option Nat) (error : Option String) :
    screenshotResultFromJson
      (.obj [("image", .ofOptStr image),
             ("image_type", .ofOptStr image_type),
             ("width", .ofOptNat width),
             ("height", .ofOptNat height),
             ("size_bytes", .ofOptNat size_bytes),
             ("error", .ofOptStr error)]) =
      some ⟨image, image_type, width, height, size_bytes, error⟩ := by
  cases image <;> cases image_type <;> cases width <;> cases height <;>
    cases size_bytes <;> cases error <;>
    simp [screenshotResultFromJson, Json.getOptStr,
      Json.getOptNat, Json.lookup, Json.lookup.go, Json.ofOptStr, Json.ofOptNat]

theorem screenshotResultFromJson_toJson (r : ScreenshotResult) :
    screenshotResultFromJson (screenshotResultToJson r) = some r := by
  obtain ⟨image, image_type, width, height, size_bytes, error⟩ := r
  exact screenshotResultFromJson_fields ..

theorem jobResultFromJson_toJson (j : JobResult) :
    jobResultFromJson (jobResultToJson j) = some j := by
  obtain ⟨job_id, status, result, created_at, updated_at⟩ := j
  cases result <;> cases status <;>
    simp [jobResultToJson, jobResultFromJson, Json.lookup, Json.lookup.go,
      statusToString, statusFromString, screenshotResultFromJson_fields,
      screenshotResultToJson]

/-! ## Claim theorems -/

/-- C1: `submit_task(params)` SETs the pending status record (with TTL) and
RPUSHes the task payload `{job_id, params}` inside one
`pipeline(transaction=True)` block — one atomic step of this model — so
immediately after it returns, `get_job(job_id)` reads back the pending
record (a dequeueable task always has a readable status key). -/
theorem submitTask_atomic (cfg : Settings) (jobId : String) (now : ℚ)
    (params : ScreenshotParams) (st : Redis) :
    (TaskManager.submitTask cfg jobId now params st).1 = jobId ∧
    TaskManager.getJob cfg (TaskManager.submitTask cfg jobId now params st).2
        jobId =
      some { job_id := jobId, status := .pending, result := none,
             created_at := now, updated_at := now } ∧
    (TaskManager.submitTask cfg jobId now params st).2.lists
        cfg.REDIS_TASK_QUEUE =
      st.lists cfg.REDIS_TASK_QUEUE ++
        [TaskManager.taskPayloadJson jobId params] := by
  refine ⟨rfl, ?_, ?_⟩
  · simp [TaskManager.submitTask, TaskManager.getJob, Redis.setEx, Redis.rpush,
      jobResultFromJson_toJson]
  · simp [TaskManager.submitTask, Redis.setEx, Redis.rpush]

/-- C2: after `update_job_status(job_id, success, r)` on an existing job with
a fresh mailbox and a non-empty image `x`, the persisted record read back by
`get_job` carries `result.image = None`, the first `wait_for_result` returns
the full record with `result.image = x`, and a second `wait_for_result`
times out (`None`). -/
theorem updateJobStatus_success_delivery (cfg : Settings) (jobId : String)
    (job0 : JobResult) (r : ScreenshotResult) (x : String) (now : ℚ)
    (st : Redis) (t t' : Nat)
    (hjob : TaskManager.getJob cfg st jobId = some job0)
    (hmail : st.lists (TaskManager.mailboxKey jobId) = [])
    (himg : r.image = some x) (hx : x ≠ "") :
    TaskManager.getJob cfg
        (TaskManager.updateJobStatus cfg jobId .success (some r) now st)
        jobId =
      some { job0 with
             status := .success
             updated_at := now
             result := some { r with image := none } } ∧
    (TaskManager.waitForResult
        (TaskManager.updateJobStatus cfg jobId .success (some r) now st)
        jobId t).1 =
      some { job0 with
             status := .success
             updated_at := now
             result := some r } ∧
    (TaskManager.waitForResult
        (TaskManager.waitForResult
          (TaskManager.updateJobStatus cfg jobId .success (some r) now st)
          jobId t).2
        jobId t').1 = none := by
  have himgT :
      TaskManager.imageTruthy
        { job0 with
          status := JobStatus.success
          updated_at := now
          result := some r } = true := by
    simp [TaskManager.imageTruthy, himg, hx]
  have hclear :
      TaskManager.clearImage
        { job0 with
          status := JobStatus.success
          updated_at := now
          result := some r } =
      { job0 with
        status := JobStatus.success
        updated_at := now
        result := some { r with image := none } } := by
    simp [TaskManager.clearImage]
  have hupd :
      TaskManager.updateJobStatus cfg jobId .success (some r) now st =
        TaskManager.setResult cfg jobId
          { job0 with
            status := .success
            updated_at := now
            result := some { r with image := none } }
          ((st.rpush (TaskManager.mailboxKey jobId)
            (jobResultToJson
              { job0 with
                status := .success
                updated_at := now
                result := some r })).expire (TaskManager.mailboxKey jobId) 60) := by
    rw [TaskManager.updateJobStatus, hjob]
    simp [himgT, hclear]
  rw [hupd]
  refine ⟨?_, ?_, ?_⟩
  · simp [TaskManager.setResult, TaskManager.getJob, Redis.setEx, Redis.expire,
      jobResultFromJson_toJson]
  · simp [TaskManager.setResult, TaskManager.waitForResult, Redis.setEx,
      Redis.expire, Redis.rpush, Redis.blpop, hmail, jobResultFromJson_toJson]
  · simp [TaskManager.setResult, TaskManager.waitForResult, Redis.setEx,
      Redis.expire, Redis.rpush, Redis.blpop, hmail]

/-- Witness for C2 at a concrete broker state. -/
theorem updateJobStatus_success_delivery_witness :
    (TaskManager.getJob sampleSettings c2State "j" = some c2Job ∧
     c2State.lists (TaskManager.mailboxKey "j") = [] ∧
     c2Result.image = some "X" ∧ "X" ≠ "") ∧
    (TaskManager.getJob sampleSettings
        (TaskManager.updateJobStatus sampleSettings "j" .success (some c2Result)
          5 c2State) "j" =
      some { c2Job with
             status := .success
             updated_at := 5
             result := some { c2Result with image := none } } ∧
    (TaskManager.waitForResult
        (TaskManager.updateJobStatus sampleSettings "j" .success (some c2Result)
          5 c2State) "j" 30).1 =
      some { c2Job with
             status := .success
             updated_at := 5
             result := some c2Result } ∧
    (TaskManager.waitForResult
        (TaskManager.waitForResult
          (TaskManager.updateJobStatus sampleSettings "j" .success (some c2Result)
            5 c2State) "j" 30).2 "j" 30).1 = none) :=
  ⟨⟨by decide, rfl, rfl, by decide⟩,
   updateJobStatus_success_delivery sampleSettings "j" c2Job c2Result "X" 5
     c2State 30 30 (by decide) rfl rfl (by decide)⟩

/-- C3: the capture cascade.  With `clip` set, a page screenshot with the
clip rect is taken (whatever `selector`/`full_page` say); otherwise with
`selector` set, the first match is captured without `full_page`/
`omit_background` and a miss raises `SELECTOR_NOT_FOUND` (`-32003`);
otherwise a page screenshot honours `full_page` and `omit_background`.
In every call, a quality is sent exactly when `image_type` is `jpeg`. -/
theorem captureDispatch_cascade (found : String → Bool) (p : ScreenshotParams) :
    (∀ c, p.clip = some c →
      captureDispatch found p =
        .ok (.pageShot p.image_type p.full_page p.omit_background
          (if p.image_type = .jpeg then some p.quality else none) (some c))) ∧
    (∀ sel, p.clip = none → p.selector = some sel → found sel = true →
      captureDispatch found p =
        .ok (.elementShot sel p.image_type
          (if p.image_type = .jpeg then some p.quality else none))) ∧
    (∀ sel, p.clip = none → p.selector = some sel → found sel = false →
      ∃ e, captureDispatch found p = .error e ∧
        e.code = ErrorCode.SELECTOR_NOT_FOUND) ∧
    (p.clip = none → p.selector = none →
      captureDispatch found p =
        .ok (.pageShot p.image_type p.full_page p.omit_background
          (if p.image_type = .jpeg then some p.quality else none) none)) ∧
    (p.image_type = .png →
      (if p.image_type = .jpeg then some p.quality else none) =
        (none : Option Nat)) ∧
    (p.image_type = .jpeg →
      (if p.image_type = .jpeg then some p.quality else none) =
        some p.quality) := by
  refine ⟨?_, ?_, ?_, ?_, ?_, ?_⟩
  · intro c hc
    simp [captureDispatch, hc]
  · intro sel hc hsel hfound
    simp [captureDispatch, hc, hsel, hfound]
  · intro sel hc hsel hfound
    have h : captureDispatch found p =
        .error ⟨s!"选择器 '{sel}' 未匹配到任何元素",
                ErrorCode.SELECTOR_NOT_FOUND⟩ := by
      simp [captureDispatch, hc, hsel, hfound]
    exact ⟨_, h, rfl⟩
  · intro hc hsel
    simp [captureDispatch, hc, hsel]
  · intro h
    simp [h]
  · intro h
    simp [h]

example :
    captureDispatch (fun _ => true)
      { sampleParams with
        clip := some ⟨0, 0, 100, 100⟩
        selector := some "#b"
        full_page := true } =
    .ok (.pageShot .png true false none (some ⟨0, 0, 100, 100⟩)) := rfl

example :
    captureDispatch (fun _ => false)
      { sampleParams with selector := some "#nope" } =
    .error ⟨"选择器 '#nope' 未匹配到任何元素", -32003⟩ := rfl

example :
    captureDispatch (fun _ => true)
      { sampleParams with
        selector := some "#b"
        image_type := .jpeg
        quality := 70 } =
    .ok (.elementShot "#b" .jpeg (some 70)) := rfl

/-- C4: for every byte string that starts with the 8-byte PNG signature and
has at least 24 bytes (the signature, 8 header bytes, then the IHDR data),
the parser returns the two big-endian `uint32` values at offsets 16..24 as
`(width, height)`; for every byte string not starting with the signature it
returns `(0, 0)` (the parser is total, so it never raises). -/
theorem pngDimensions_spec :
    (∀ (hdr : List Nat) (a b c d e f g h : Nat) (tail : List Nat),
      hdr.length = 8 →
      pngDimensions
          (pngSignature ++ hdr ++
            (a :: b :: c :: d :: e :: f :: g :: h :: tail)) =
        (be32 a b c d, be32 e f g h)) ∧
    (∀ data : List Nat, data.take 8 ≠ pngSignature →
      pngDimensions data = (0, 0)) := by
  constructor
  · intro hdr a b c d e f g h tail hlen
    have hsig : (8 : Nat) = pngSignature.length := by simp [pngSignature]
    have hpre : (pngSignature ++ hdr).length = 16 := by
      simp [pngSignature, hlen]
    have htake :
        (pngSignature ++ hdr ++
          (a :: b :: c :: d :: e :: f :: g :: h :: tail)).take 8 =
          pngSignature := by
      rw [List.append_assoc]
      exact List.take_left' rfl
    have hdrop :
        (pngSignature ++ hdr ++
          (a :: b :: c :: d :: e :: f :: g :: h :: tail)).drop 16 =
          a :: b :: c :: d :: e :: f :: g :: h :: tail :=
      List.drop_left' hpre
    have hlen24 :
        ¬ (pngSignature ++ hdr ++
            (a :: b :: c :: d :: e :: f :: g :: h :: tail)).length < 24 := by
      simp [pngSignature, hlen]
      omega
    rw [pngDimensions, if_neg ?_, hdrop]
    push_neg
    refine ⟨by simpa using hlen24, htake⟩
  · intro data hsig
    rw [pngDimensions, if_pos (Or.inr hsig)]

example :
    pngDimensions
      (pngSignature ++
        [0, 0, 0, 13, 0x49, 0x48, 0x44, 0x52, 0, 0, 1, 0, 0, 0, 0, 200]) =
      (256, 200) := by decide

example : pngDimensions [1, 2, 3, 4] = (0, 0) := by decide

theorem jpegScan_encode (pre : List JpegSegment) (sof : JpegSegment)
    (post : List Nat) (p h1 h2 w1 w2 : Nat) (tail : List Nat)
    (hpre : ∀ s ∈ pre, goodSkipSegment s)
    (hm : isSOFMarker sof.marker)
    (hp : sof.payload = p :: h1 :: h2 :: w1 :: w2 :: tail) :
    jpegScan (encodeSegments pre ++ encodeSegment sof ++ post) =
      (be16 w1 w2, be16 h1 h2) := by
  induction pre with
  | nil =>
    have hm' : sof.marker = 0xFFC0 ∨ sof.marker = 0xFFC1 ∨ sof.marker = 0xFFC2 :=
      hm
    have hbytes :
        encodeSegments [] ++ encodeSegment sof ++ post =
          sof.marker / 256 :: sof.marker % 256 ::
            (sof.payload.length + 2) / 256 :: (sof.payload.length + 2) % 256 ::
            (p :: h1 :: h2 :: w1 :: w2 :: (tail ++ post)) := by
      simp [encodeSegments, encodeSegment, hp]
    have hmark : sof.marker / 256 * 256 + sof.marker % 256 = sof.marker := by
      omega
    rw [hbytes, jpegScan, hmark, if_pos hm']
    rfl
  | cons s pre' ih =>
    obtain ⟨-, -, hnsof, hne, -⟩ := hpre s (List.mem_cons_self s pre')
    have hnsof' :
        ¬ (s.marker = 0xFFC0 ∨ s.marker = 0xFFC1 ∨ s.marker = 0xFFC2) := hnsof
    have hbytes :
        encodeSegments (s :: pre') ++ encodeSegment sof ++ post =
          s.marker / 256 :: s.marker % 256 ::
            (s.payload.length + 2) / 256 :: (s.payload.length + 2) % 256 ::
            (s.payload ++ (encodeSegments pre' ++ encodeSegment sof ++ post)) := by
      simp [encodeSegments, encodeSegment]
    have hmark : s.marker / 256 * 256 + s.marker % 256 = s.marker := by
      omega
    have hlen :
        (s.payload.length + 2) / 256 * 256 + (s.payload.length + 2) % 256 =
          s.payload.length + 2 := by
      omega
    rw [hbytes, jpegScan, hmark, hlen, if_neg hnsof',
      if_pos (by have := List.length_pos.mpr hne; omega)]
    have hdrop :
        (s.payload ++
            (encodeSegments pre' ++ encodeSegment sof ++ post)).drop
          (s.payload.length + 2 - 2) =
          encodeSegments pre' ++ encodeSegment sof ++ post := by
      simp
    rw [hdrop]
    exact ih fun t ht => hpre t (List.mem_cons_of_mem s ht)

/-- C5 (amended): for SOI followed by well-formed marker segments — each
marker two bytes starting `FF`, each length field covering itself plus a
non-empty payload and fitting a `uint16` — up to an SOF0/SOF1/SOF2 segment
with at least five payload bytes, the parser skips one precision byte of
that segment and returns the two big-endian `uint16` values, height stored
first, as `(width, height)`.  Inputs not starting with SOI yield `(0, 0)`,
and the parser is a total function, so image delivery never fails on
dimension parsing; but a malformed stream whose scan reaches `FF C0`-style
bytes in marker position returns the values encoded there instead of
`(0, 0)` (see the counterexample). -/
theorem jpegDimensions_spec :
    (∀ (pre : List JpegSegment) (sof : JpegSegment) (post : List Nat)
        (p h1 h2 w1 w2 : Nat) (tail : List Nat),
      (∀ s ∈ pre, goodSkipSegment s) →
      isSOFMarker sof.marker →
      sof.payload = p :: h1 :: h2 :: w1 :: w2 :: tail →
      jpegDimensions
          (0xFF :: 0xD8 :: (encodeSegments pre ++ encodeSegment sof ++ post)) =
        (be16 w1 w2, be16 h1 h2)) ∧
    (∀ data : List Nat, data.take 2 ≠ [0xFF, 0xD8] →
      jpegDimensions data = (0, 0)) := by
  constructor
  · intro pre sof post p h1 h2 w1 w2 tail hpre hm hp
    have h := jpegScan_encode pre sof post p h1 h2 w1 w2 tail hpre hm hp
    simpa [jpegDimensions] using h
  · intro data h
    unfold jpegDimensions
    split
    · simp at h
    · rfl

/-- Witness for the well-formed half of the amended C5: an APP0 segment,
then an SOF0 segment declaring a 16×32 image. -/
theorem jpegDimensions_spec_witness :
    ((∀ s ∈ [(⟨0xFFE0, [0x4A, 0x46]⟩ : JpegSegment)], goodSkipSegment s) ∧
      isSOFMarker (0xFFC0 : Nat) ∧
      ([1, 2, 3] : List Nat).take 2 ≠ [0xFF, 0xD8]) ∧
    jpegDimensions
        (0xFF :: 0xD8 ::
          (encodeSegments [⟨0xFFE0, [0x4A, 0x46]⟩] ++
            encodeSegment ⟨0xFFC0, [0x08, 0x00, 0x10, 0x00, 0x20, 0x03]⟩ ++
            [])) =
      (be16 0x00 0x20, be16 0x00 0x10) ∧
    jpegDimensions [1, 2, 3] = (0, 0) :=
  ⟨⟨by decide, by decide, by decide⟩,
   jpegDimensions_spec.1 [⟨0xFFE0, [0x4A, 0x46]⟩]
     ⟨0xFFC0, [0x08, 0x00, 0x10, 0x00, 0x20, 0x03]⟩ [] 0x08 0x00 0x10 0x00 0x20
     [0x03] (by decide) (by decide) rfl,
   jpegDimensions_spec.2 [1, 2, 3] (by decide)⟩

/-- C5 counterexample: a malformed stream — an SOF0 marker whose declared
segment length (3) provides a single payload byte, followed by stray bytes
that are not a valid `FF`-led segment — is read past the declared segment
end and yields `(32, 16)`, not the `(0, 0)` the claim promises for every
malformed input. -/
theorem jpegDimensions_malformed_counterexample :
    jpegDimensions
        [0xFF, 0xD8, 0xFF, 0xC0, 0x00, 0x03, 0xAB, 0x00, 0x10, 0x00, 0x20] =
      (32, 16) ∧
    ([0xFF, 0xD8, 0xFF, 0xC0, 0x00, 0x03, 0xAB, 0x00, 0x10, 0x00, 0x20] :
        List Nat) =
      [0xFF, 0xD8] ++ encodeSegment ⟨0xFFC0, [0xAB]⟩ ++
        [0x00, 0x10, 0x00, 0x20] ∧
    ((32, 16) : Nat × Nat) ≠ (0, 0) := by
  refine ⟨?_, by decide, by decide⟩
  simp [jpegDimensions, jpegScan, readSOFPayload, be16]

/-- C6 counterexample: the handler's ping status string is `"在线"`, not
`"online"` (and the serialized response also carries an explicit
`"error": null` member), so the claimed response is never produced. -/
theorem ping_online_counterexample :
    (RpcHandler.handle sampleSettings ⟨"u", 0⟩ emptyRedis pingRequestJson).1 ≠
      some claimedPingResponseJson ∧
    (RpcHandler.handle sampleSettings ⟨"u", 0⟩ emptyRedis pingRequestJson).1 =
      some (.obj [("jsonrpc", .str "2.0"), ("id", .num 1),
                  ("result", .obj [("pong", .bool true), ("status", .str "在线")]),
                  ("error", .null)]) ∧
    pingResultJson.lookup "status" = some (.str "在线") ∧
    ("在线" : String) ≠ "online" := by
  refine ⟨by decide, by decide, by decide, by decide⟩

/-- C6 (amended): `ping` always answers `{"pong": True, "status": "在线"}`
("在线" is the Chinese word for "online"); the request
`{"jsonrpc":"2.0","method":"ping","id":1}` yields the response
`{"jsonrpc":"2.0","id":1,"result":{"pong":true,"status":"在线"},"error":null}`
(the serialized response model always carries all four members). -/
theorem ping_spec (cfg : Settings) (ctx : Ctx) (st : Redis)
    (params : Option Json) (id : Option RpcId) :
    dispatch cfg ctx st ⟨"ping", params, id⟩ = (.ok pingResultJson, st) ∧
    pingResultJson = .obj [("pong", .bool true), ("status", .str "在线")] ∧
    (RpcHandler.handle cfg ctx st pingRequestJson).1 =
      some (.obj [("jsonrpc", .str "2.0"), ("id", .num 1),
                  ("result", .obj [("pong", .bool true), ("status", .str "在线")]),
                  ("error", .null)]) := by
  refine ⟨rfl, rfl, ?_⟩
  rfl

/-- C7 counterexample: at `timeout_ms = 1500` the handler waits 6 seconds —
`int(1500 / 1000) + 5` truncates — not the exact `1500/1000 + 5 = 6.5`
seconds the claim states. -/
theorem screenshotWaitTimeout_counterexample :
    screenshotWaitTimeout paramsT1500 = 6 ∧
    paramsT1500.timeout_ms = 1500 ∧
    ¬ ((screenshotWaitTimeout paramsT1500 : ℚ) =
        (paramsT1500.timeout_ms : ℚ) / 1000 + 5) := by
  refine ⟨rfl, rfl, ?_⟩
  norm_num [screenshotWaitTimeout, paramsT1500, sampleParams]

/-- C7 (amended): the screenshot handler calls `wait_for_result` with a
timeout of `⌊timeout_ms / 1000⌋ + 5` seconds (Python truncates
`int(timeout_ms / 1000)`, and `handleScreenshot` passes
`screenshotWaitTimeout` to the wait); e.g. `timeout_ms = 1500` waits 6
seconds, not 6.5. -/
theorem screenshotWaitTimeout_floor (p : ScreenshotParams) :
    (screenshotWaitTimeout p : ℤ) = ⌊(p.timeout_ms : ℚ) / 1000⌋ + 5 := by
  have h := Rat.floor_intCast_div_natCast (p.timeout_ms : ℤ) 1000
  rw [screenshotWaitTimeout]
  push_cast
  push_cast at h
  rw [h]

/-- C8: after `wait_for_result`, the screenshot handler raises `-32004` when
no mailbox entry arrived (`None`), raises `-32001` carrying the
worker-reported error text (`job.result.error`) when the job failed, and on
success returns `job.result.model_dump()` — the
`{image, image_type, width, height, size_bytes}` sub-object (plus its
always-present `error` member) — not the `JobResult` wrapper (no `job_id`
or `status` keys). -/
theorem screenshotOutcome_spec (jobId : String) (job : Option JobResult) :
    (job = none →
      screenshotOutcome jobId job =
        .error ⟨ErrorCode.TIMEOUT, some s!"任务执行超时 (ID: {jobId})", none⟩ ∧
      ErrorCode.TIMEOUT = -32004) ∧
    (∀ j r, job = some j → j.status = .failed → j.result = some r →
      screenshotOutcome jobId job =
        .error ⟨ErrorCode.SCREENSHOT_FAILED, r.error,
                some (.obj [("job_id", .str jobId)])⟩ ∧
      ErrorCode.SCREENSHOT_FAILED = -32001) ∧
    (∀ j r, job = some j → j.status = .success → j.result = some r →
      screenshotOutcome jobId job = .ok (screenshotResultToJson r) ∧
      (screenshotResultToJson r).lookup "image" = some (.ofOptStr r.image) ∧
      (screenshotResultToJson r).lookup "image_type" =
        some (.ofOptStr r.image_type) ∧
      (screenshotResultToJson r).lookup "width" = some (.ofOptNat r.width) ∧
      (screenshotResultToJson r).lookup "height" = some (.ofOptNat r.height) ∧
      (screenshotResultToJson r).lookup "size_bytes" =
        some (.ofOptNat r.size_bytes) ∧
      (screenshotResultToJson r).lookup "job_id" = none ∧
      (screenshotResultToJson r).lookup "status" = none) := by
  refine ⟨?_, ?_, ?_⟩
  · rintro rfl
    exact ⟨rfl, rfl⟩
  · rintro j r rfl hst hres
    refine ⟨?_, rfl⟩
    simp [screenshotOutcome, hst, hres]
  · rintro j r rfl hst hres
    have hnotfailed : ¬ j.status = JobStatus.failed := by
      rw [hst]; intro h; cases h
    refine ⟨?_, ?_, ?_, ?_, ?_, ?_, ?_, ?_⟩ <;>
      simp [screenshotOutcome, hnotfailed, hres, screenshotResultToJson,
        Json.lookup, Json.lookup.go]

example :
    screenshotOutcome "j" none =
      .error ⟨-32004, some "任务执行超时 (ID: j)", none⟩ := rfl

example :
    screenshotOutcome "j"
        (some { job_id := "j", status := .failed,
                result := some { error := some "boom" },
                created_at := 0, updated_at := 0 }) =
      .error ⟨-32001, some "boom", some (.obj [("job_id", .str "j")])⟩ := rfl

example :
    screenshotOutcome "j"
        (some { job_id := "j", status := .success, result := some c2Result,
                created_at := 0, updated_at := 0 }) =
      .ok (.obj [("image", .str "X"), ("image_type", .str "png"),
                 ("width", .num 2), ("height", .num 3),
                 ("size_bytes", .num 4), ("error", .null)]) := rfl

/-- C9 counterexample: a notification whose dispatch fails — here an unknown
method — does not yield HTTP 204: the raised `_RpcError` is caught and an
error response body (HTTP 200) is returned even though the request carried
no id. -/
theorem notification_error_counterexample :
    (handleRpcHttp sampleSettings ⟨"u", 0⟩ emptyRedis nopeNotificationJson).1 ≠
      HttpReply.noContent ∧
    (handleRpcHttp sampleSettings ⟨"u", 0⟩ emptyRedis nopeNotificationJson).1 =
      .okJson (.obj [("jsonrpc", .str "2.0"), ("id", .null), ("result", .null),
                     ("error", .obj [("code", .num (-32601)),
                                     ("message", .str "找不到请求的方法: 'nope'"),
                                     ("data", .null)])]) := by
  constructor
  · decide
  · decide

/-- C9 (amended): a request that validates with an absent id is a
notification.  When its dispatch (handler included) succeeds, no response
body is produced and the HTTP layer answers 204; but when decoding,
dispatch, or the handler fails, a JSON-RPC error response with `id: null` is
returned as a 200 body — not 204. -/
theorem notification_spec (cfg : Settings) (ctx : Ctx) (st : Redis)
    (payload : Json) (req : JsonRpcRequest)
    (hval : validateRequest payload = some req) (hid : req.id = none) :
    (∀ result st', dispatch cfg ctx st req = (.ok result, st') →
      handleRpcHttp cfg ctx st payload = (.noContent, st')) ∧
    (∀ e st', dispatch cfg ctx st req = (.error e, st') →
      handleRpcHttp cfg ctx st payload = (.okJson (errorResponse none e), st')) := by
  have hobj : ∃ fields, payload = Json.obj fields := by
    cases payload <;> simp [validateRequest] at hval ⊢
  obtain ⟨fields, rfl⟩ := hobj
  constructor
  · intro result st' hdisp
    simp [handleRpcHttp, RpcHandler.handle, hval, hdisp, hid]
  · intro e st' hdisp
    simp [handleRpcHttp, RpcHandler.handle, hval, hdisp, hid]

/-- Witness for C9 at the ping notification (dispatch succeeds ⇒ 204) and a
concrete failing dispatch. -/
theorem notification_spec_witness :
    (validateRequest pingNotificationJson =
      some { method := "ping", params := none, id := none } ∧
     (JsonRpcRequest.id { method := "ping", params := none, id := none }) =
       none ∧
     dispatch sampleSettings ⟨"u", 0⟩ emptyRedis
        { method := "ping", params := none, id := none } =
       (.ok pingResultJson, emptyRedis)) ∧
    (handleRpcHttp sampleSettings ⟨"u", 0⟩ emptyRedis pingNotificationJson).1 =
      HttpReply.noContent :=
  ⟨⟨by decide, rfl, rfl⟩,
   by
    rw [(notification_spec sampleSettings ⟨"u", 0⟩ emptyRedis
      pingNotificationJson { method := "ping", params := none, id := none }
      (by decide) rfl).1 pingResultJson emptyRedis rfl]⟩

/-- C10: with `style_overrides` absent — `None` or the empty string, both
falsy in `if not css` — `_inject_styles` returns the HTML unchanged, for
any behaviour of the underlying HTML parser, so the content loaded into the
page is exactly `params.html`. -/
theorem injectStyles_absent_identity (soupInject : String → String → String)
    (html : String) (p : ScreenshotParams) :
    injectStyles soupInject html none = html ∧
    injectStyles soupInject html (some "") = html ∧
    (p.style_overrides = none → renderedContent soupInject p = p.html) ∧
    (p.style_overrides = some "" → renderedContent soupInject p = p.html) := by
  refine ⟨rfl, rfl, ?_, ?_⟩
  · intro h
    simp [renderedContent, injectStyles, h]
  · intro h
    simp [renderedContent, injectStyles, h]

/-- Witness for C10 at a concrete parameter record (no style overrides). -/
theorem injectStyles_absent_identity_witness :
    sampleParams.style_overrides = none ∧
    renderedContent (fun h _ => h ++ "<style></style>") sampleParams =
      sampleParams.html :=
  ⟨rfl,
   (injectStyles_absent_identity (fun h _ => h ++ "<style></style>")
     sampleParams.html sampleParams).2.2.1 rfl⟩
